import Mathlib

/-!
Verification of the ExpenseOwl HTTP handler layer
(`internal/api/handlers.go`).

The handler layer is embedded shallowly: each Go handler becomes a pure
Lean function from its inputs (HTTP method, decoded request body, query
parameters, and the results of collaborator calls) to the new state, the
HTTP response, and the list of collaborator calls performed (so that
"collaborator X was never invoked" is expressible).  Collaborators that
live outside `src/` (the storage engine, the config package's expense
validator, the template/static renderer) are either abstracted as
parameters or modelled from the spec, as marked.

Go `float64` amounts are modelled as `Rat`; Go `time.Time` is modelled as
an absolute instant (seconds + nanoseconds since 0001-01-01T00:00:00 UTC,
Go's zero time) together with a location offset.
-/

namespace ExpenseOwl

/-! ## Go time model -/

/-- Model of Go `time.Time`: `sec`/`nsec` give the absolute instant as
seconds and nanoseconds since January 1 of year 1, 00:00:00 UTC (Go's zero
time), and `off` is the location's offset east of UTC in seconds (the
location only affects presentation, not the instant). -/
structure GoTime where
  sec : Int
  nsec : Nat
  off : Int
  deriving Repr, DecidableEq

/-- Go `Time.IsZero`: the instant is the zero time (location-independent). -/
def GoTime.isZero (t : GoTime) : Bool :=
  t.sec = 0 && t.nsec = 0

/-- Go `Time.UTC`: same instant, location set to UTC. -/
def GoTime.utc (t : GoTime) : GoTime :=
  { t with off := 0 }

/-- Two times denote the same absolute instant. -/
def sameInstant (t u : GoTime) : Prop :=
  t.sec = u.sec ∧ t.nsec = u.nsec

/-- Left-pad a natural number to two decimal digits (Go's `01`, `02`,
`15`, `04`, `05` layout fields). -/
def pad2 (n : Nat) : String :=
  if n < 10 then "0" ++ toString n else toString n

/-- Left-pad a natural number to four decimal digits (Go's `2006` layout
field for years up to 9999). -/
def pad4 (n : Nat) : String :=
  if n < 10 then "000" ++ toString n
  else if n < 100 then "00" ++ toString n
  else if n < 1000 then "0" ++ toString n
  else toString n

/-- Render a year as Go's `2006` layout field does: four zero-padded
digits, with a leading minus sign for negative years. -/
def yearString (y : Int) : String :=
  if y < 0 then "-" ++ pad4 (-y).toNat else pad4 y.toNat

/-- Year-of-era from day-of-era (`doe < 146097`), per the civil-from-days
algorithm underlying Go's `Time.Date`. -/
def yoeOf (doe : Nat) : Nat :=
  (doe - doe / 1460 + doe / 36524 - doe / 146096) / 365

/-- Day-of-year (March-based) from day-of-era. -/
def doyOf (doe : Nat) : Nat :=
  doe - (365 * yoeOf doe + yoeOf doe / 4 - yoeOf doe / 100)

/-- Shifted month index (0 = March) from day-of-era. -/
def mpOf (doe : Nat) : Nat :=
  (5 * doyOf doe + 2) / 153

/-- Calendar month (1-12) from day-of-era. -/
def monthOf (doe : Nat) : Nat :=
  if mpOf doe < 10 then mpOf doe + 3 else mpOf doe - 9

/-- Calendar day of month (1-31) from day-of-era. -/
def dayOf (doe : Nat) : Nat :=
  doyOf doe - (153 * mpOf doe + 2) / 5 + 1

/-- Convert a count of days since 0001-01-01 into `(year, month, day)` of
the proleptic Gregorian calendar (the civil-from-days algorithm used by
Go's `Time.Date`). -/
def civilFromDays (days : Int) : Int × Nat × Nat :=
  let z := days + 306
  let era := z.ediv 146097
  let doe : Nat := (z.emod 146097).toNat
  let m := monthOf doe
  let y : Int := (yoeOf doe : Int) + era * 400 + (if m ≤ 2 then 1 else 0)
  (y, m, dayOf doe)

/-- Break a `GoTime` into its civil components
`(year, month, day, hour, minute, second)` in its own location. -/
def GoTime.civil (t : GoTime) : Int × Nat × Nat × Nat × Nat × Nat :=
  let lsec := t.sec + t.off
  let days := lsec.ediv 86400
  let sod : Nat := (lsec.emod 86400).toNat
  let (y, m, d) := civilFromDays days
  (y, m, d, sod / 3600, sod % 3600 / 60, sod % 60)

/-- Go `Time.Format("2006-01-02 15:04:05")`. -/
def goDateFormat (t : GoTime) : String :=
  let (y, m, d, hh, mi, ss) := t.civil
  yearString y ++ "-" ++ pad2 m ++ "-" ++ pad2 d ++ " " ++
    pad2 hh ++ ":" ++ pad2 mi ++ ":" ++ pad2 ss

/-! ## Amount formatting (Go `fmt.Sprintf("%.2f", amount)`) -/

/-- Round a non-negative rational to the nearest integer, ties to even
(the rounding Go's `%.2f` formatting performs on the scaled value). -/
def halfEvenRound (x : Rat) : Nat :=
  let n := x.floor.toNat
  let fr := x - x.floor
  if fr < 1 / 2 then n
  else if 1 / 2 < fr then n + 1
  else if n % 2 = 0 then n else n + 1

/-- Go `fmt.Sprintf("%.2f", q)`: sign, integer part, and exactly two
fractional digits. -/
def format2 (q : Rat) : String :=
  let c := halfEvenRound (|q| * 100)
  (if q < 0 then "-" else "") ++ toString (c / 100) ++ "." ++ pad2 (c % 100)

/-! ## Data model -/

/-- `config.Expense` (fields per the spec's data model: identifier, name,
category, amount, date). -/
structure Expense where
  id : String
  name : String
  category : String
  amount : Rat
  date : GoTime
  deriving Repr, DecidableEq

/-- `api.ExpenseRequest`: the wire-only input shape (no identifier). -/
structure ExpenseRequest where
  name : String
  category : String
  amount : Rat
  date : GoTime
  deriving Repr, DecidableEq

/-- `config.Config`: process-wide category list and currency code. -/
structure Config where
  categories : List String
  currency : String
  deriving Repr, DecidableEq

/-- Modelled from the spec: `Config.UpdateCategories` is not under `src/`;
per the spec it "replaces the full category set". -/
def Config.updateCategories (c : Config) (cats : List String) : Config :=
  { c with categories := cats }

/-- Modelled from the spec: `Config.UpdateCurrency` is not under `src/`;
per the spec it replaces the currency string. -/
def Config.updateCurrency (c : Config) (cur : String) : Config :=
  { c with currency := cur }

/-- Storage errors: the distinguished not-found sentinel
(`storage.ErrExpenseNotFound`) versus any other error, carrying its
message. -/
inductive StorageErr where
  | notFound
  | other (msg : String)
  deriving Repr, DecidableEq

/-! ## JSON values and rendering (Go `encoding/json`) -/

/-- A JSON value, as produced by Go's `encoding/json` marshalling.
Object fields are kept in emission order. -/
inductive JsonVal where
  | null
  | bool (b : Bool)
  | num (q : Rat)
  | str (s : String)
  | arr (elems : List JsonVal)
  | obj (fields : List (String × JsonVal))
  deriving Repr

/-- Whether a JSON value is an object. -/
def JsonVal.isObj : JsonVal → Bool
  | .obj _ => true
  | _ => false

/-- Escape one character as Go's `encoding/json` string encoder does
(quote, backslash, control characters, and the HTML-sensitive
`<`, `>`, `&`). -/
def escChar (c : Char) : String :=
  if c = '"' then "\\\""
  else if c = '\\' then "\\\\"
  else if c = '\n' then "\\n"
  else if c = '\r' then "\\r"
  else if c = '\t' then "\\t"
  else if c = '<' then "\\u003c"
  else if c = '>' then "\\u003e"
  else if c = '&' then "\\u0026"
  else if c.toNat < 32 then
    "\\u00" ++ pad2 (c.toNat / 16) ++ toString (c.toNat % 16)
  else String.singleton c

/-- Quote a string as a JSON string literal. -/
def jsonQuote (s : String) : String :=
  "\"" ++ String.join (s.data.map escChar) ++ "\""

/-- Smallest `k ≤ fuel` with `den ∣ 10 ^ k`, searching upward from `k`. -/
def findExpAux : Nat → Nat → Nat → Option Nat
  | 0, _, _ => none
  | fuel + 1, den, k => if 10 ^ k % den = 0 then some k else findExpAux fuel den (k + 1)

/-- Smallest `k` with `den ∣ 10 ^ k`, if any below 1100 (every `float64`
value is a binary fraction, whose denominator divides `10 ^ 1074`). -/
def findExp (den : Nat) : Option Nat :=
  findExpAux 1100 den 0

/-- Left-pad a digit string with zeros to width `k`. -/
def leftPadZeros (k : Nat) (s : String) : String :=
  String.join (List.replicate (k - s.length) "0") ++ s

/-- Render a rational as Go's `encoding/json` renders the corresponding
`float64`: the shortest exact decimal form (`3.5`, `7`, `-0.25`).  The
fallback branch is unreachable for values coming from `float64`, whose
denominators are powers of two. -/
def qRender (q : Rat) : String :=
  match findExp q.den with
  | none => toString q.num ++ "e" ++ toString q.den
  | some k =>
    let scaled : Nat := q.num.natAbs * (10 ^ k / q.den)
    let ip := scaled / 10 ^ k
    let fr := scaled % 10 ^ k
    (if q.num < 0 then "-" else "") ++ toString ip ++
      (if k = 0 then "" else "." ++ leftPadZeros k (toString fr))

mutual

/-- Compact JSON rendering, as `json.Encoder.Encode` produces (no added
whitespace). -/
def renderCompact : JsonVal → String
  | .null => "null"
  | .bool true => "true"
  | .bool false => "false"
  | .num q => qRender q
  | .str s => jsonQuote s
  | .arr l => "[" ++ renderCompactList l ++ "]"
  | .obj l => "\x7b" ++ renderCompactObj l ++ "\x7d"

/-- Comma-separated compact rendering of array elements. -/
def renderCompactList : List JsonVal → String
  | [] => ""
  | [j] => renderCompact j
  | j :: rest => renderCompact j ++ "," ++ renderCompactList rest

/-- Comma-separated compact rendering of object fields. -/
def renderCompactObj : List (String × JsonVal) → String
  | [] => ""
  | [(k, v)] => jsonQuote k ++ ":" ++ renderCompact v
  | (k, v) :: rest => jsonQuote k ++ ":" ++ renderCompact v ++ "," ++ renderCompactObj rest

end

/-- `d` levels of four-space indentation (the indent string passed to
`json.MarshalIndent` is four spaces). -/
def ind (d : Nat) : String :=
  String.join (List.replicate d "    ")

mutual

/-- Indented JSON rendering at nesting depth `d`, as
`json.MarshalIndent(v, "", "    ")` produces. -/
def renderIndent (d : Nat) : JsonVal → String
  | .null => "null"
  | .bool true => "true"
  | .bool false => "false"
  | .num q => qRender q
  | .str s => jsonQuote s
  | .arr [] => "[]"
  | .arr (j :: rest) => "[\n" ++ renderIndentList d (j :: rest) ++ "\n" ++ ind d ++ "]"
  | .obj [] => "\x7b\x7d"
  | .obj (f :: rest) => "\x7b\n" ++ renderIndentObj d (f :: rest) ++ "\n" ++ ind d ++ "\x7d"

/-- Indented rendering of array elements, one per line. -/
def renderIndentList (d : Nat) : List JsonVal → String
  | [] => ""
  | [j] => ind (d + 1) ++ renderIndent (d + 1) j
  | j :: rest => ind (d + 1) ++ renderIndent (d + 1) j ++ ",\n" ++ renderIndentList d rest

/-- Indented rendering of object fields, one per line. -/
def renderIndentObj (d : Nat) : List (String × JsonVal) → String
  | [] => ""
  | [(k, v)] => ind (d + 1) ++ jsonQuote k ++ ": " ++ renderIndent (d + 1) v
  | (k, v) :: rest =>
    ind (d + 1) ++ jsonQuote k ++ ": " ++ renderIndent (d + 1) v ++ ",\n" ++ renderIndentObj d rest

end

/-! ## Wire encoding of expenses -/

/-- Fractional-second part of an RFC 3339 timestamp: empty when zero,
else a dot followed by the nanoseconds with trailing zeros trimmed
(Go marshals `time.Time` in RFC 3339 with nanoseconds). -/
def fracStr (n : Nat) : String :=
  if n = 0 then ""
  else "." ++ (leftPadZeros 9 (toString n)).dropRightWhile (fun c => c = '0')

/-- RFC 3339 zone suffix: `Z` for UTC, else a signed `hh:mm` offset. -/
def zoneStr (off : Int) : String :=
  if off = 0 then "Z"
  else (if off < 0 then "-" else "+") ++
    pad2 (off.natAbs / 3600) ++ ":" ++ pad2 (off.natAbs % 3600 / 60)

/-- Go's JSON encoding of a `time.Time`: the RFC 3339 representation in
the time's own location. -/
def rfc3339 (t : GoTime) : String :=
  let (y, m, d, hh, mi, ss) := t.civil
  yearString y ++ "-" ++ pad2 m ++ "-" ++ pad2 d ++ "T" ++
    pad2 hh ++ ":" ++ pad2 mi ++ ":" ++ pad2 ss ++ fracStr t.nsec ++ zoneStr t.off

/-- Modelled from the spec: the JSON wire shape of `config.Expense`
(the struct and its tags are not under `src/`); the spec's data model and
round-trip example give lowercase `id`, `name`, `category`, `amount`,
`date` fields, with the date as an RFC 3339 string. -/
def expenseToJson (e : Expense) : JsonVal :=
  .obj [("id", .str e.id), ("name", .str e.name), ("category", .str e.category),
        ("amount", .num e.amount), ("date", .str (rfc3339 e.date))]

/-- Look up a field of a JSON object field list. -/
def jsonLookup (fields : List (String × JsonVal)) (k : String) : Option JsonVal :=
  match fields with
  | [] => none
  | (k', v) :: rest => if k' = k then some v else jsonLookup rest k

/-- The wire-level field tuple of a decoded expense:
`(id, name, category, amount, date-string)`. -/
structure WireExpense where
  id : String
  name : String
  category : String
  amount : Rat
  date : String
  deriving Repr, DecidableEq

/-- Decode one JSON value as an expense object, recovering its wire-level
fields; fails unless the value is an object with the expected field
types. -/
def decodeExpenseJson (j : JsonVal) : Option WireExpense :=
  match j with
  | .obj fs =>
    match jsonLookup fs "id", jsonLookup fs "name", jsonLookup fs "category",
        jsonLookup fs "amount", jsonLookup fs "date" with
    | some (.str i), some (.str n), some (.str c), some (.num a), some (.str d) =>
      some ⟨i, n, c, a, d⟩
    | _, _, _, _, _ => none
  | _ => none

/-- Decode each element of a JSON array as an expense object, failing if
any element fails. -/
def decodeExpenseItems : List JsonVal → Option (List WireExpense)
  | [] => some []
  | j :: rest =>
    match decodeExpenseJson j, decodeExpenseItems rest with
    | some w, some ws => some (w :: ws)
    | _, _ => none

/-- Decode a JSON value as an array of expense objects. -/
def decodeExpenseList (j : JsonVal) : Option (List WireExpense) :=
  match j with
  | .arr elems => decodeExpenseItems elems
  | _ => none

/-- The wire-level view of a stored expense. -/
def wireOf (e : Expense) : WireExpense :=
  ⟨e.id, e.name, e.category, e.amount, rfc3339 e.date⟩

/-! ## HTTP responses -/

/-- A response body: either a JSON value written through `writeJSON` /
the JSON encoder, or raw text (plain-text errors, CSV, rendered HTML,
the indented JSON export). -/
inductive RespBody where
  | jsonB (j : JsonVal)
  | textB (s : String)
  deriving Repr

/-- The observable HTTP response: status code, `Content-Type` and
`Content-Disposition` headers, and body. -/
structure Response where
  status : Nat
  contentType : Option String
  disposition : Option String
  body : RespBody
  deriving Repr

/-- `api.writeJSON`: sets `Content-Type: application/json`, writes the
status code, and encodes the value as JSON. -/
def writeJSON (status : Nat) (v : JsonVal) : Response :=
  { status := status, contentType := some "application/json",
    disposition := none, body := .jsonB v }

/-- Go `http.Error`: plain-text content type (replacing any content type
set earlier), the given status, and the message followed by a newline. -/
def httpError (msg : String) (status : Nat) : Response :=
  { status := status, contentType := some "text/plain; charset=utf-8",
    disposition := none, body := .textB (msg ++ "\n") }

/-- The 405 response every handler produces on a method mismatch. -/
def methodNotAllowed : Response :=
  httpError "Method not allowed" 405

/-- The JSON body of `api.ErrorResponse`. -/
def errJson (msg : String) : JsonVal :=
  .obj [("error", .str msg)]

/-- The `map[string]string` success body used by the mutating handlers. -/
def statusSuccess : JsonVal :=
  .obj [("status", .str "success")]

/-- A response as `writeJSON` shapes its error responses:
`application/json` content type with a JSON object body. -/
def jsonObjResp (r : Response) : Prop :=
  r.contentType = some "application/json" ∧ ∃ j, r.body = .jsonB j ∧ j.isObj = true

/-- A response as `http.Error` shapes it: plain-text content type with a
text body. -/
def plainTextResp (r : Response) : Prop :=
  r.contentType = some "text/plain; charset=utf-8" ∧ ∃ s, r.body = .textB s

/-! ## Collaborators -/

/-- One observable collaborator call made by a handler. -/
inductive Effect where
  | save (e : Expense)
  | getAll
  | delete (id : String)
  | updateCats (cats : List String)
  | updateCurr (cur : String)
  | render (name : String)
  | static (path : String)
  deriving Repr, DecidableEq

/-- The `storage.Storage` interface over an abstract state type `σ`:
`save` may rewrite the expense (the Go method takes a pointer and assigns
the identifier), `getAll` returns the stored list, `delete` removes by
identifier and may signal the not-found sentinel. -/
structure StorageModel (σ : Type) where
  save : σ → Expense → σ × Except StorageErr Expense
  getAll : σ → Except StorageErr (List Expense)
  delete : σ → String → σ × Option StorageErr

/-- The handler's shared state: the storage state and the config. -/
structure Ctx (σ : Type) where
  st : σ
  cfg : Config

/-- The full observable outcome of one handler invocation. -/
def HandlerOut (σ : Type) := Ctx σ × Response × List Effect

/-- The response component of a handler outcome. -/
def respOf {σ : Type} (o : HandlerOut σ) : Response :=
  o.2.1

/-- The effect-trace component of a handler outcome. -/
def effectsOf {σ : Type} (o : HandlerOut σ) : List Effect :=
  o.2.2

/-! ## Spec-modelled collaborators -/

/-- Modelled from the spec: the expense validation predicate is owned by
the external `config` package (not under `src/`); the spec names
non-empty name/category and non-negative amount as the presumed rules.
Returns the validator's error message on failure. -/
def specValidate (e : Expense) : Option String :=
  if e.name = "" then some "expense name cannot be empty"
  else if e.category = "" then some "expense category cannot be empty"
  else if e.amount < 0 then some "expense amount cannot be negative"
  else none

/-- State of the spec-modelled in-memory storage. -/
structure MemState where
  expenses : List Expense
  nextId : Nat
  deriving Repr, DecidableEq

/-- Modelled from the spec: the storage engine is not under `src/`.
`save` assigns a fresh, unique, non-empty identifier and persists the
expense; it never fails in memory. -/
def memSave (st : MemState) (e : Expense) : MemState × Except StorageErr Expense :=
  let stored := { e with id := "id-" ++ toString st.nextId }
  ({ expenses := st.expenses ++ [stored], nextId := st.nextId + 1 }, .ok stored)

/-- Modelled from the spec: delete by identifier, signalling the
not-found sentinel when no stored expense has the identifier. -/
def memDelete (st : MemState) (i : String) : MemState × Option StorageErr :=
  if st.expenses.any (fun e => e.id = i) then
    ({ st with expenses := st.expenses.filter (fun e => e.id ≠ i) }, none)
  else (st, some .notFound)

/-- Modelled from the spec: the in-memory storage collaborator. -/
def memStorage : StorageModel MemState :=
  { save := memSave, getAll := fun st => .ok st.expenses, delete := memDelete }

/-! ## Handlers (`internal/api/handlers.go`)

Each handler takes the HTTP method, the decoded request body where the Go
code decodes one (`none` standing for a body the JSON decoder rejects),
and the outcomes of external collaborator calls it makes, and returns the
new state, the response, and the trace of collaborator calls. -/

variable {σ : Type}

/-- `Handler.GetCategories` (handlers.go:44): GET only; returns the
current categories and currency as a `ConfigResponse`. -/
def getCategories (ctx : Ctx σ) (method : String) : HandlerOut σ :=
  if method ≠ "GET" then (ctx, methodNotAllowed, [])
  else
    (ctx,
     writeJSON 200 (.obj [("categories", .arr (ctx.cfg.categories.map .str)),
                          ("currency", .str ctx.cfg.currency)]),
     [])

/-- `Handler.EditCategories` (handlers.go:57): PUT only; decodes a string
list and replaces the whole category set. -/
def editCategories (ctx : Ctx σ) (method : String) (body : Option (List String)) :
    HandlerOut σ :=
  if method ≠ "PUT" then (ctx, methodNotAllowed, [])
  else
    match body with
    | none => (ctx, writeJSON 400 (errJson "Invalid request body"), [])
    | some categories =>
      ({ ctx with cfg := ctx.cfg.updateCategories categories },
       writeJSON 200 statusSuccess, [.updateCats categories])

/-- `Handler.EditCurrency` (handlers.go:74): PUT only; decodes a string
and replaces the currency. -/
def editCurrency (ctx : Ctx σ) (method : String) (body : Option String) :
    HandlerOut σ :=
  if method ≠ "PUT" then (ctx, methodNotAllowed, [])
  else
    match body with
    | none => (ctx, writeJSON 400 (errJson "Invalid request body"), [])
    | some currency =>
      ({ ctx with cfg := ctx.cfg.updateCurrency currency },
       writeJSON 200 statusSuccess, [.updateCurr currency])

/-- The expense `AddExpense` constructs from a decoded request
(handlers.go:103-111): the date is normalized to UTC when non-zero, and
the identifier is left empty for storage to assign. -/
def expenseOfRequest (req : ExpenseRequest) : Expense :=
  let date := if !req.date.isZero then req.date.utc else req.date
  { id := "", name := req.name, category := req.category,
    amount := req.amount, date := date }

/-- `Handler.AddExpense` (handlers.go:91): PUT only; decode, normalize the
date, validate (`validate` abstracts the external
`config.Expense.Validate`), save, and echo the stored expense. -/
def addExpense (S : StorageModel σ) (validate : Expense → Option String)
    (ctx : Ctx σ) (method : String) (body : Option ExpenseRequest) : HandlerOut σ :=
  if method ≠ "PUT" then (ctx, methodNotAllowed, [])
  else
    match body with
    | none => (ctx, writeJSON 400 (errJson "Invalid request body"), [])
    | some req =>
      let expense := expenseOfRequest req
      match validate expense with
      | some msg => (ctx, writeJSON 400 (errJson msg), [])
      | none =>
        match S.save ctx.st expense with
        | (st', .error _) =>
          ({ ctx with st := st' }, writeJSON 500 (errJson "Failed to save expense"),
           [.save expense])
        | (st', .ok stored) =>
          ({ ctx with st := st' }, writeJSON 200 (expenseToJson stored), [.save expense])

/-- `Handler.GetExpenses` (handlers.go:125): GET only; returns all stored
expenses as a JSON array. -/
def getExpenses (S : StorageModel σ) (ctx : Ctx σ) (method : String) : HandlerOut σ :=
  if method ≠ "GET" then (ctx, methodNotAllowed, [])
  else
    match S.getAll ctx.st with
    | .error _ => (ctx, writeJSON 500 (errJson "Failed to retrieve expenses"), [.getAll])
    | .ok expenses =>
      (ctx, writeJSON 200 (.arr (expenses.map expenseToJson)), [.getAll])

/-- `Handler.DeleteExpense` (handlers.go:180): DELETE only; requires the
`id` query parameter (`""` is Go's result for a missing parameter); maps
the not-found sentinel to 404, other failures to 500. -/
def deleteExpense (S : StorageModel σ) (ctx : Ctx σ) (method : String)
    (idParam : String) : HandlerOut σ :=
  if method ≠ "DELETE" then (ctx, methodNotAllowed, [])
  else if idParam = "" then
    (ctx, writeJSON 400 (errJson "ID parameter is required"), [])
  else
    match S.delete ctx.st idParam with
    | (st', some .notFound) =>
      ({ ctx with st := st' }, writeJSON 404 (errJson "Expense not found"),
       [.delete idParam])
    | (st', some (.other _)) =>
      ({ ctx with st := st' }, writeJSON 500 (errJson "Failed to delete expense"),
       [.delete idParam])
    | (st', none) =>
      ({ ctx with st := st' }, writeJSON 200 statusSuccess, [.delete idParam])

/-- A successful HTML page response (`text/html` content type set by the
handler before delegating to the template renderer). -/
def htmlPage (content : String) : Response :=
  { status := 200, contentType := some "text/html", disposition := none,
    body := .textB content }

/-- `Handler.ServeTableView` (handlers.go:140): GET only; renders
`table.html` (`renderRes` abstracts the external `web.ServeTemplate`). -/
def serveTableView (ctx : Ctx σ) (method : String)
    (renderRes : Except String String) : HandlerOut σ :=
  if method ≠ "GET" then (ctx, methodNotAllowed, [])
  else
    match renderRes with
    | .error _ => (ctx, httpError "Failed to serve template" 500, [.render "table.html"])
    | .ok content => (ctx, htmlPage content, [.render "table.html"])

/-- `Handler.ServeSettingsPage` (handlers.go:154): GET only; renders
`settings.html`. -/
def serveSettingsPage (ctx : Ctx σ) (method : String)
    (renderRes : Except String String) : HandlerOut σ :=
  if method ≠ "GET" then (ctx, methodNotAllowed, [])
  else
    match renderRes with
    | .error _ => (ctx, httpError "Failed to serve template" 500, [.render "settings.html"])
    | .ok content => (ctx, htmlPage content, [.render "settings.html"])

/-- `Handler.ServeAPISetupView` (handlers.go:168): GET only; renders
`api-setup.html`. -/
def serveAPISetupView (ctx : Ctx σ) (method : String)
    (renderRes : Except String String) : HandlerOut σ :=
  if method ≠ "GET" then (ctx, methodNotAllowed, [])
  else
    match renderRes with
    | .error _ => (ctx, httpError "Failed to serve template" 500, [.render "api-setup.html"])
    | .ok content => (ctx, htmlPage content, [.render "api-setup.html"])

/-- `Handler.ServeStaticFile` (handlers.go:207): GET only; resolves the
request path (`staticRes` abstracts the external `web.ServeStatic`,
yielding the asset's content type and bytes on success). -/
def serveStaticFile (ctx : Ctx σ) (method : String) (path : String)
    (staticRes : Except String (String × String)) : HandlerOut σ :=
  if method ≠ "GET" then (ctx, methodNotAllowed, [])
  else
    match staticRes with
    | .error _ => (ctx, httpError "Failed to serve static file" 500, [.static path])
    | .ok (ct, content) =>
      (ctx, { status := 200, contentType := some ct, disposition := none,
              body := .textB content }, [.static path])

/-- Replace every comma in a name with a semicolon
(`strings.ReplaceAll(name, ",", ";")`; for a single-character pattern
this is exactly a per-character replacement). -/
def sanitizeName (s : String) : String :=
  String.mk (s.data.map (fun c => if c = ',' then ';' else c))

/-- One CSV data line as built by `ExportCSV`'s `fmt.Sprintf`
(handlers.go:238-244). -/
def csvRow (e : Expense) : String :=
  e.id ++ "," ++ sanitizeName e.name ++ "," ++ e.category ++ "," ++
    format2 e.amount ++ "," ++ goDateFormat e.date ++ "\n"

/-- The CSV header line written first (handlers.go:236). -/
def csvHeader : String :=
  "ID,Name,Category,Amount,Date\n"

/-- `Handler.ExportCSV` (handlers.go:221): GET only; fetches all expenses
and streams the header plus one line per expense. -/
def exportCSV (S : StorageModel σ) (ctx : Ctx σ) (method : String) : HandlerOut σ :=
  if method ≠ "GET" then (ctx, methodNotAllowed, [])
  else
    match S.getAll ctx.st with
    | .error _ => (ctx, writeJSON 500 (errJson "Failed to retrieve expenses"), [.getAll])
    | .ok expenses =>
      (ctx,
       { status := 200, contentType := some "text/csv",
         disposition := some "attachment; filename=expenses.csv",
         body := .textB (csvHeader ++ String.join (expenses.map csvRow)) },
       [.getAll])

/-- `json.MarshalIndent(expenses, "", "    ")`: the expense list as an
indented JSON array. -/
def goMarshalIndent (expenses : List Expense) : Except String String :=
  .ok (renderIndent 0 (.arr (expenses.map expenseToJson)))

/-- `Handler.ExportJSON` (handlers.go:250) parameterized by the marshal
step, so that its (for these types unreachable) failure branch is
expressible: GET only; fetches all expenses, sets the download headers,
and writes the indented JSON. -/
def exportJSONWith (marshal : List Expense → Except String String)
    (S : StorageModel σ) (ctx : Ctx σ) (method : String) : HandlerOut σ :=
  if method ≠ "GET" then (ctx, methodNotAllowed, [])
  else
    match S.getAll ctx.st with
    | .error _ => (ctx, writeJSON 500 (errJson "Failed to retrieve expenses"), [.getAll])
    | .ok expenses =>
      match marshal expenses with
      | .error _ => (ctx, httpError "Failed to marshal JSON data" 500, [.getAll])
      | .ok jsonData =>
        (ctx,
         { status := 200, contentType := some "application/json",
           disposition := some "attachment; filename=expenses.json",
           body := .textB jsonData },
         [.getAll])

/-- `Handler.ExportJSON` with the real marshal step. -/
def exportJSON (S : StorageModel σ) (ctx : Ctx σ) (method : String) : HandlerOut σ :=
  exportJSONWith goMarshalIndent S ctx method

/-- A timestamp string in the `YYYY-MM-DD HH:MM:SS` layout: a year field,
then two-digit month, day, hour, minute and second fields in calendar
range, joined by the layout's separators. -/
def DateShaped (s : String) : Prop :=
  ∃ y : Int, ∃ mo d hh mi ss : Nat,
    s = yearString y ++ "-" ++ pad2 mo ++ "-" ++ pad2 d ++ " " ++
        pad2 hh ++ ":" ++ pad2 mi ++ ":" ++ pad2 ss ∧
    1 ≤ mo ∧ mo ≤ 12 ∧ 1 ≤ d ∧ d ≤ 31 ∧ hh < 24 ∧ mi < 60 ∧ ss < 60 ∧
    (pad2 mo).length = 2 ∧ (pad2 d).length = 2 ∧ (pad2 hh).length = 2 ∧
    (pad2 mi).length = 2 ∧ (pad2 ss).length = 2

/-! ## Witness fixtures -/

/-- A starting context for witnesses: empty storage, two categories. -/
def ctx0 : Ctx MemState :=
  ⟨⟨[], 0⟩, ⟨["Food", "Travel"], "usd"⟩⟩

/-- A non-zero timestamp with a non-UTC offset
(2021-03-14T16:09:26+01:00). -/
def tTime : GoTime :=
  ⟨1615734566 + 62135596800, 0, 3600⟩

/-- The spec's round-trip expense request. -/
def coffeeReq : ExpenseRequest :=
  ⟨"Coffee", "Food", 35 / 10, tTime⟩

/-- A storage whose every operation fails with the given message (used to
exercise the generic-failure paths). -/
def failStorage (m : String) : StorageModel Unit :=
  { save := fun st _ => (st, .error (.other m)),
    getAll := fun _ => .error (.other m),
    delete := fun st _ => (st, some (.other m)) }

/-- A context holding one stored expense with identifier `id-0`. -/
def ctx1 : Ctx MemState :=
  ⟨⟨[{ expenseOfRequest coffeeReq with id := "id-0" }], 1⟩, ctx0.cfg⟩

/-! ## Helper lemmas -/

theorem pad2_length {n : Nat} (h : n < 100) : (pad2 n).length = 2 := by
  revert h
  revert n
  decide

theorem pad2_digits {n : Nat} (h : n < 100) : (pad2 n).data.all Char.isDigit = true := by
  revert h
  revert n
  decide

theorem doyOf_le {doe : Nat} (h : doe < 146097) : doyOf doe ≤ 672 := by
  unfold doyOf yoeOf
  omega

theorem dayOf_bounds (doe : Nat) : 1 ≤ dayOf doe ∧ dayOf doe ≤ 31 := by
  unfold dayOf mpOf
  omega

theorem monthOf_bounds {doe : Nat} (h : doe < 146097) :
    1 ≤ monthOf doe ∧ monthOf doe ≤ 12 := by
  have h1 : doyOf doe ≤ 672 := doyOf_le h
  unfold monthOf mpOf
  split <;> omega

theorem civilFromDays_month_day (days : Int) :
    1 ≤ (civilFromDays days).2.1 ∧ (civilFromDays days).2.1 ≤ 12 ∧
    1 ≤ (civilFromDays days).2.2 ∧ (civilFromDays days).2.2 ≤ 31 := by
  have hnn : 0 ≤ (days + 306).emod 146097 := Int.emod_nonneg _ (by norm_num)
  have hlt : (days + 306).emod 146097 < 146097 :=
    Int.emod_lt_of_pos _ (by norm_num)
  have hdoe : ((days + 306).emod 146097).toNat < 146097 := by omega
  unfold civilFromDays
  exact ⟨(monthOf_bounds hdoe).1, (monthOf_bounds hdoe).2,
    (dayOf_bounds _).1, (dayOf_bounds _).2⟩

theorem goDateFormat_shaped (t : GoTime) : DateShaped (goDateFormat t) := by
  have hnn : 0 ≤ (t.sec + t.off).emod 86400 := Int.emod_nonneg _ (by norm_num)
  have hlt : (t.sec + t.off).emod 86400 < 86400 :=
    Int.emod_lt_of_pos _ (by norm_num)
  have hsod : ((t.sec + t.off).emod 86400).toNat < 86400 := by omega
  have hmd := civilFromDays_month_day ((t.sec + t.off).ediv 86400)
  refine ⟨(civilFromDays ((t.sec + t.off).ediv 86400)).1,
    (civilFromDays ((t.sec + t.off).ediv 86400)).2.1,
    (civilFromDays ((t.sec + t.off).ediv 86400)).2.2,
    ((t.sec + t.off).emod 86400).toNat / 3600,
    ((t.sec + t.off).emod 86400).toNat % 3600 / 60,
    ((t.sec + t.off).emod 86400).toNat % 60, ?_⟩
  have hh : ((t.sec + t.off).emod 86400).toNat / 3600 < 24 := by omega
  have hmi : ((t.sec + t.off).emod 86400).toNat % 3600 / 60 < 60 := by omega
  have hss : ((t.sec + t.off).emod 86400).toNat % 60 < 60 := by omega
  refine ⟨?_, hmd.1, hmd.2.1, hmd.2.2.1, hmd.2.2.2, hh, hmi, hss,
    pad2_length (by omega), pad2_length (by omega), pad2_length (by omega),
    pad2_length (by omega), pad2_length (by omega)⟩
  unfold goDateFormat GoTime.civil
  rcases hc : civilFromDays ((t.sec + t.off).ediv 86400) with ⟨y, m, d⟩
  simp [hc]

theorem format2_shape (q : Rat) :
    ∃ pre post, format2 q = pre ++ "." ++ post ∧ post.length = 2 ∧
      post.data.all Char.isDigit = true := by
  refine ⟨(if q < 0 then "-" else "") ++ toString (halfEvenRound (|q| * 100) / 100),
    pad2 (halfEvenRound (|q| * 100) % 100), ?_,
    pad2_length (Nat.mod_lt _ (by norm_num)),
    pad2_digits (Nat.mod_lt _ (by norm_num))⟩
  unfold format2
  rfl

theorem sanitizeName_no_comma (s : String) :
    (sanitizeName s).data.all (fun c => c ≠ ',') = true := by
  unfold sanitizeName
  rw [List.all_eq_true]
  intro c hc
  simp only [String.data] at hc
  rw [List.mem_map] at hc
  rcases hc with ⟨c0, _, rfl⟩
  by_cases h : c0 = ',' <;> simp [h]

theorem filter_any_id_false (l : List Expense) (i : String) :
    (l.filter (fun e => e.id ≠ i)).any (fun e => e.id = i) = false := by
  induction l with
  | nil => rfl
  | cons e rest ih =>
    by_cases h : e.id = i <;> simp_all [List.filter_cons]

theorem assignedId_ne_empty (n : Nat) : ("id-" ++ toString n) ≠ "" := by
  intro h
  have hl := congrArg String.length h
  rw [String.length_append] at hl
  have h3 : "id-".length = 3 := rfl
  have h0 : "".length = 0 := rfl
  omega

theorem decodeExpenseJson_wire (e : Expense) :
    decodeExpenseJson (expenseToJson e) = some (wireOf e) := by
  rfl

theorem decodeExpenseItems_wire (es : List Expense) :
    decodeExpenseItems (es.map expenseToJson) = some (es.map wireOf) := by
  induction es with
  | nil => rfl
  | cons e rest ih =>
    simp [decodeExpenseItems, decodeExpenseJson_wire, ih]

theorem decodeExpenseList_wire (es : List Expense) :
    decodeExpenseList (.arr (es.map expenseToJson)) = some (es.map wireOf) := by
  simp [decodeExpenseList, decodeExpenseItems_wire]

/-- Every handler's method guard: on a method mismatch the state is
unchanged, no collaborator is called, and the response is the plain-text
405 (handlers.go lines 45, 58, 75, 92, 126, 141, 155, 169, 181, 208,
222, 251). -/
theorem methodGuard {σ : Type} (S : StorageModel σ) (validate : Expense → Option String)
    (ctx : Ctx σ) (m : String) (catsBody : Option (List String)) (curBody : Option String)
    (reqBody : Option ExpenseRequest) (idp : String) (rr : Except String String)
    (path : String) (sr : Except String (String × String))
    (marshal : List Expense → Except String String) :
    (m ≠ "GET" → getCategories ctx m = (ctx, methodNotAllowed, [])) ∧
    (m ≠ "PUT" → editCategories ctx m catsBody = (ctx, methodNotAllowed, [])) ∧
    (m ≠ "PUT" → editCurrency ctx m curBody = (ctx, methodNotAllowed, [])) ∧
    (m ≠ "PUT" → addExpense S validate ctx m reqBody = (ctx, methodNotAllowed, [])) ∧
    (m ≠ "GET" → getExpenses S ctx m = (ctx, methodNotAllowed, [])) ∧
    (m ≠ "DELETE" → deleteExpense S ctx m idp = (ctx, methodNotAllowed, [])) ∧
    (m ≠ "GET" → serveTableView ctx m rr = (ctx, methodNotAllowed, [])) ∧
    (m ≠ "GET" → serveSettingsPage ctx m rr = (ctx, methodNotAllowed, [])) ∧
    (m ≠ "GET" → serveAPISetupView ctx m rr = (ctx, methodNotAllowed, [])) ∧
    (m ≠ "GET" → serveStaticFile ctx m path sr = (ctx, methodNotAllowed, [])) ∧
    (m ≠ "GET" → exportCSV S ctx m = (ctx, methodNotAllowed, [])) ∧
    (m ≠ "GET" → exportJSONWith marshal S ctx m = (ctx, methodNotAllowed, [])) := by
  refine ⟨fun h => ?_, fun h => ?_, fun h => ?_, fun h => ?_, fun h => ?_, fun h => ?_,
    fun h => ?_, fun h => ?_, fun h => ?_, fun h => ?_, fun h => ?_, fun h => ?_⟩
  · unfold getCategories; rw [if_pos h]
  · unfold editCategories; rw [if_pos h]
  · unfold editCurrency; rw [if_pos h]
  · unfold addExpense; rw [if_pos h]
  · unfold getExpenses; rw [if_pos h]
  · unfold deleteExpense; rw [if_pos h]
  · unfold serveTableView; rw [if_pos h]
  · unfold serveSettingsPage; rw [if_pos h]
  · unfold serveAPISetupView; rw [if_pos h]
  · unfold serveStaticFile; rw [if_pos h]
  · unfold exportCSV; rw [if_pos h]
  · unfold exportJSONWith; rw [if_pos h]

/-! ## Claims -/

/-- C5: for every handler in the layer and every request whose HTTP
method differs from that handler's single allowed method, the handler
responds 405 (the plain-text `methodNotAllowed` response) before doing
any other work: the state is returned unchanged and the effect trace is
empty, so no storage method, config update, template render, or static
resolution is invoked. -/
theorem C5_method_mismatch_405_no_effects {σ : Type} (S : StorageModel σ)
    (validate : Expense → Option String) (ctx : Ctx σ) (m : String)
    (catsBody : Option (List String)) (curBody : Option String)
    (reqBody : Option ExpenseRequest) (idp : String) (rr : Except String String)
    (path : String) (sr : Except String (String × String))
    (marshal : List Expense → Except String String) :
    (m ≠ "GET" → getCategories ctx m = (ctx, methodNotAllowed, [])) ∧
    (m ≠ "PUT" → editCategories ctx m catsBody = (ctx, methodNotAllowed, [])) ∧
    (m ≠ "PUT" → editCurrency ctx m curBody = (ctx, methodNotAllowed, [])) ∧
    (m ≠ "PUT" → addExpense S validate ctx m reqBody = (ctx, methodNotAllowed, [])) ∧
    (m ≠ "GET" → getExpenses S ctx m = (ctx, methodNotAllowed, [])) ∧
    (m ≠ "DELETE" → deleteExpense S ctx m idp = (ctx, methodNotAllowed, [])) ∧
    (m ≠ "GET" → serveTableView ctx m rr = (ctx, methodNotAllowed, [])) ∧
    (m ≠ "GET" → serveSettingsPage ctx m rr = (ctx, methodNotAllowed, [])) ∧
    (m ≠ "GET" → serveAPISetupView ctx m rr = (ctx, methodNotAllowed, [])) ∧
    (m ≠ "GET" → serveStaticFile ctx m path sr = (ctx, methodNotAllowed, [])) ∧
    (m ≠ "GET" → exportCSV S ctx m = (ctx, methodNotAllowed, [])) ∧
    (m ≠ "GET" → exportJSONWith marshal S ctx m = (ctx, methodNotAllowed, [])) :=
  methodGuard S validate ctx m catsBody curBody reqBody idp rr path sr marshal

/-- C5 witness: a POST request is rejected by every handler with the 405
response, unchanged state, and no collaborator calls. -/
theorem C5_method_mismatch_405_no_effects_witness :
    getCategories ctx0 "POST" = (ctx0, methodNotAllowed, []) ∧
    editCategories ctx0 "POST" (some ["A"]) = (ctx0, methodNotAllowed, []) ∧
    editCurrency ctx0 "POST" (some "eur") = (ctx0, methodNotAllowed, []) ∧
    addExpense memStorage specValidate ctx0 "POST" (some coffeeReq)
      = (ctx0, methodNotAllowed, []) ∧
    getExpenses memStorage ctx0 "POST" = (ctx0, methodNotAllowed, []) ∧
    deleteExpense memStorage ctx0 "POST" "id-0" = (ctx0, methodNotAllowed, []) ∧
    serveTableView ctx0 "POST" (.ok "x") = (ctx0, methodNotAllowed, []) ∧
    serveSettingsPage ctx0 "POST" (.ok "x") = (ctx0, methodNotAllowed, []) ∧
    serveAPISetupView ctx0 "POST" (.ok "x") = (ctx0, methodNotAllowed, []) ∧
    serveStaticFile ctx0 "POST" "/style.css" (.ok ("text/css", "x"))
      = (ctx0, methodNotAllowed, []) ∧
    exportCSV memStorage ctx0 "POST" = (ctx0, methodNotAllowed, []) ∧
    exportJSONWith goMarshalIndent memStorage ctx0 "POST" = (ctx0, methodNotAllowed, []) := by
  have h := C5_method_mismatch_405_no_effects memStorage specValidate ctx0 "POST"
    (some ["A"]) (some "eur") (some coffeeReq) "id-0" (.ok "x") "/style.css"
    (.ok ("text/css", "x")) goMarshalIndent
  exact ⟨h.1 (by decide), h.2.1 (by decide), h.2.2.1 (by decide), h.2.2.2.1 (by decide),
    h.2.2.2.2.1 (by decide), h.2.2.2.2.2.1 (by decide), h.2.2.2.2.2.2.1 (by decide),
    h.2.2.2.2.2.2.2.1 (by decide), h.2.2.2.2.2.2.2.2.1 (by decide),
    h.2.2.2.2.2.2.2.2.2.1 (by decide), h.2.2.2.2.2.2.2.2.2.2.1 (by decide),
    h.2.2.2.2.2.2.2.2.2.2.2 (by decide)⟩

/-- C2: when the decoded `ExpenseRequest` fails the validation predicate,
`AddExpense` responds 400 with the validator's error message as the JSON
error body, the state is unchanged, and the effect trace is empty — in
particular `SaveExpense` is never called and nothing is persisted. -/
theorem C2_validation_failure_400_not_persisted {σ : Type} (S : StorageModel σ)
    (validate : Expense → Option String) (ctx : Ctx σ) (req : ExpenseRequest)
    (msg : String) (hv : validate (expenseOfRequest req) = some msg) :
    addExpense S validate ctx "PUT" (some req) = (ctx, writeJSON 400 (errJson msg), []) := by
  unfold addExpense
  rw [if_neg (by simp)]
  simp only [hv]

/-- C2 witness: an expense with an empty name fails the spec-modelled
validator and yields 400 with its message, with no storage call. -/
theorem C2_validation_failure_400_not_persisted_witness :
    specValidate (expenseOfRequest ⟨"", "Food", 35 / 10, tTime⟩)
      = some "expense name cannot be empty" ∧
    addExpense memStorage specValidate ctx0 "PUT" (some ⟨"", "Food", 35 / 10, tTime⟩)
      = (ctx0, writeJSON 400 (errJson "expense name cannot be empty"), []) :=
  ⟨by decide,
   C2_validation_failure_400_not_persisted memStorage specValidate ctx0
     ⟨"", "Food", 35 / 10, tTime⟩ "expense name cannot be empty" (by decide)⟩

/-- C8: `EditCategories` accepts any list of strings with no per-item
validation and fully replaces (does not merge) the configured category
set, responding 200 with the success body; a subsequent `GetCategories`
returns exactly the new list (with the unchanged currency). -/
theorem C8_edit_categories_replaces {σ : Type} (ctx : Ctx σ) (cats : List String) :
    editCategories ctx "PUT" (some cats)
      = ({ ctx with cfg := ctx.cfg.updateCategories cats },
         writeJSON 200 statusSuccess, [.updateCats cats]) ∧
    (ctx.cfg.updateCategories cats).categories = cats ∧
    getCategories { ctx with cfg := ctx.cfg.updateCategories cats } "GET"
      = ({ ctx with cfg := ctx.cfg.updateCategories cats },
         writeJSON 200 (.obj [("categories", .arr (cats.map .str)),
                              ("currency", .str ctx.cfg.currency)]), []) := by
  refine ⟨?_, rfl, ?_⟩
  · unfold editCategories
    rw [if_neg (by simp)]
  · unfold getCategories
    rw [if_neg (by simp)]
    rfl

/-- C4: for every decoded `AddExpense` request, the expense the handler
constructs (the one passed to `SaveExpense` when validation passes, and
echoed back on success) carries the request's date converted to UTC —
same instant, zero offset — when that date is non-zero, and carries the
zero date unchanged otherwise. -/
theorem C4_date_utc_normalization (req : ExpenseRequest) :
    (req.date.isZero = false →
       (expenseOfRequest req).date = req.date.utc ∧
       sameInstant (expenseOfRequest req).date req.date ∧
       (expenseOfRequest req).date.off = 0) ∧
    (req.date.isZero = true → (expenseOfRequest req).date = req.date) ∧
    (∀ {σ : Type} (S : StorageModel σ) (validate : Expense → Option String)
       (ctx : Ctx σ), validate (expenseOfRequest req) = none →
       effectsOf (addExpense S validate ctx "PUT" (some req))
         = [.save (expenseOfRequest req)]) ∧
    (∀ (validate : Expense → Option String) (ctx : Ctx MemState),
       validate (expenseOfRequest req) = none →
       respOf (addExpense memStorage validate ctx "PUT" (some req))
         = writeJSON 200 (expenseToJson
             { expenseOfRequest req with id := "id-" ++ toString ctx.st.nextId })) := by
  refine ⟨fun hz => ?_, fun hz => ?_, ?_, ?_⟩
  · have hd : (expenseOfRequest req).date = req.date.utc := by
      unfold expenseOfRequest
      simp [hz]
    exact ⟨hd, by rw [hd]; exact ⟨rfl, rfl⟩, by rw [hd]; rfl⟩
  · unfold expenseOfRequest
    simp [hz]
  · intro σ S validate ctx hv
    unfold addExpense
    rw [if_neg (by simp)]
    simp only [hv]
    rcases hs : S.save ctx.st (expenseOfRequest req) with ⟨st', res⟩
    cases res <;> simp [effectsOf]
  · intro validate ctx hv
    unfold addExpense
    rw [if_neg (by simp)]
    simp only [hv]
    simp [memStorage, memSave, respOf]

/-- The Coffee fixture passes the spec-modelled validator. -/
theorem coffee_valid : specValidate (expenseOfRequest coffeeReq) = none := by
  simp [specValidate, expenseOfRequest, coffeeReq, tTime]
  norm_num

/-- C4 witness: the Coffee request's non-zero offset date is normalized
to UTC (same instant, offset 0), it is the expense passed to storage,
and the stored expense in the response carries that normalized date. -/
theorem C4_date_utc_normalization_witness :
    (coffeeReq.date.isZero = false ∧
     (expenseOfRequest coffeeReq).date = coffeeReq.date.utc ∧
     sameInstant (expenseOfRequest coffeeReq).date coffeeReq.date ∧
     (expenseOfRequest coffeeReq).date.off = 0) ∧
    specValidate (expenseOfRequest coffeeReq) = none ∧
    effectsOf (addExpense memStorage specValidate ctx0 "PUT" (some coffeeReq))
      = [.save (expenseOfRequest coffeeReq)] ∧
    respOf (addExpense memStorage specValidate ctx0 "PUT" (some coffeeReq))
      = writeJSON 200 (expenseToJson
          { expenseOfRequest coffeeReq with id := "id-" ++ toString ctx0.st.nextId }) := by
  have h := C4_date_utc_normalization coffeeReq
  exact ⟨⟨by decide, h.1 (by decide)⟩, coffee_valid,
    h.2.2.1 memStorage specValidate ctx0 coffee_valid,
    h.2.2.2 specValidate ctx0 coffee_valid⟩

/-- C1: an `AddExpense` PUT whose body decodes and validates and whose
save succeeds (the spec-modelled in-memory save always succeeds) responds
200 with the stored expense as JSON body; the stored expense carries the
server-assigned non-empty identifier, is persisted, and a subsequent
`GetExpenses` lists it. -/
theorem C1_add_success_200_stored (validate : Expense → Option String)
    (ctx : Ctx MemState) (req : ExpenseRequest)
    (hv : validate (expenseOfRequest req) = none) :
    addExpense memStorage validate ctx "PUT" (some req)
      = (⟨⟨ctx.st.expenses ++
             [{ expenseOfRequest req with id := "id-" ++ toString ctx.st.nextId }],
           ctx.st.nextId + 1⟩, ctx.cfg⟩,
         writeJSON 200 (expenseToJson
           { expenseOfRequest req with id := "id-" ++ toString ctx.st.nextId }),
         [.save (expenseOfRequest req)]) ∧
    ({ expenseOfRequest req with id := "id-" ++ toString ctx.st.nextId } : Expense).id ≠ "" ∧
    ({ expenseOfRequest req with id := "id-" ++ toString ctx.st.nextId } : Expense)
      ∈ ctx.st.expenses ++
          [{ expenseOfRequest req with id := "id-" ++ toString ctx.st.nextId }] ∧
    getExpenses memStorage
        ⟨⟨ctx.st.expenses ++
            [{ expenseOfRequest req with id := "id-" ++ toString ctx.st.nextId }],
          ctx.st.nextId + 1⟩, ctx.cfg⟩ "GET"
      = (⟨⟨ctx.st.expenses ++
             [{ expenseOfRequest req with id := "id-" ++ toString ctx.st.nextId }],
           ctx.st.nextId + 1⟩, ctx.cfg⟩,
         writeJSON 200 (.arr ((ctx.st.expenses ++
             [{ expenseOfRequest req with id := "id-" ++ toString ctx.st.nextId }]).map
               expenseToJson)),
         [.getAll]) := by
  refine ⟨?_, assignedId_ne_empty ctx.st.nextId, List.mem_append_right _ (by simp), ?_⟩
  · unfold addExpense
    rw [if_neg (by simp)]
    simp only [hv]
    simp [memStorage, memSave]
  · unfold getExpenses
    rw [if_neg (by simp)]
    rfl

/-- C1 witness: adding the Coffee expense to the empty store yields 200
with the stored expense (id `id-0`, amount 3.5), and listing returns
exactly that one entry. -/
theorem C1_add_success_200_stored_witness :
    specValidate (expenseOfRequest coffeeReq) = none ∧
    (addExpense memStorage specValidate ctx0 "PUT" (some coffeeReq)
      = (⟨⟨ctx0.st.expenses ++
             [{ expenseOfRequest coffeeReq with id := "id-" ++ toString ctx0.st.nextId }],
           ctx0.st.nextId + 1⟩, ctx0.cfg⟩,
         writeJSON 200 (expenseToJson
           { expenseOfRequest coffeeReq with id := "id-" ++ toString ctx0.st.nextId }),
         [.save (expenseOfRequest coffeeReq)]) ∧
     ({ expenseOfRequest coffeeReq with
         id := "id-" ++ toString ctx0.st.nextId } : Expense).id ≠ "" ∧
     ({ expenseOfRequest coffeeReq with
         id := "id-" ++ toString ctx0.st.nextId } : Expense)
       ∈ ctx0.st.expenses ++
           [{ expenseOfRequest coffeeReq with id := "id-" ++ toString ctx0.st.nextId }] ∧
     getExpenses memStorage
         ⟨⟨ctx0.st.expenses ++
             [{ expenseOfRequest coffeeReq with id := "id-" ++ toString ctx0.st.nextId }],
           ctx0.st.nextId + 1⟩, ctx0.cfg⟩ "GET"
       = (⟨⟨ctx0.st.expenses ++
              [{ expenseOfRequest coffeeReq with id := "id-" ++ toString ctx0.st.nextId }],
            ctx0.st.nextId + 1⟩, ctx0.cfg⟩,
          writeJSON 200 (.arr ((ctx0.st.expenses ++
              [{ expenseOfRequest coffeeReq with
                  id := "id-" ++ toString ctx0.st.nextId }]).map expenseToJson)),
          [.getAll])) ∧
    ({ expenseOfRequest coffeeReq with
        id := "id-" ++ toString ctx0.st.nextId } : Expense).amount = 35 / 10 ∧
    ctx0.st.expenses = [] :=
  ⟨coffee_valid, C1_add_success_200_stored specValidate ctx0 coffeeReq coffee_valid,
   rfl, rfl⟩


/-- C3: `DeleteExpense` on a DELETE request responds 400 without calling
storage when the `id` query parameter is empty; otherwise it maps the
not-found sentinel to 404, any other storage error to 500, and success to
200 with the success body; and (over the spec-modelled storage) deleting
an existing id twice yields 200 then 404. -/
theorem C3_delete_status_mapping {σ : Type} (S : StorageModel σ) (ctx : Ctx σ)
    (i : String) (st' : σ) (msg : String) (mctx : Ctx MemState) :
    (deleteExpense S ctx "DELETE" ""
      = (ctx, writeJSON 400 (errJson "ID parameter is required"), [])) ∧
    (i ≠ "" → S.delete ctx.st i = (st', some .notFound) →
      deleteExpense S ctx "DELETE" i
        = ({ ctx with st := st' }, writeJSON 404 (errJson "Expense not found"),
           [.delete i])) ∧
    (i ≠ "" → S.delete ctx.st i = (st', some (.other msg)) →
      deleteExpense S ctx "DELETE" i
        = ({ ctx with st := st' }, writeJSON 500 (errJson "Failed to delete expense"),
           [.delete i])) ∧
    (i ≠ "" → S.delete ctx.st i = (st', none) →
      deleteExpense S ctx "DELETE" i
        = ({ ctx with st := st' }, writeJSON 200 statusSuccess, [.delete i])) ∧
    (i ≠ "" → mctx.st.expenses.any (fun e => e.id = i) = true →
      deleteExpense memStorage mctx "DELETE" i
        = (⟨⟨mctx.st.expenses.filter (fun e => e.id ≠ i), mctx.st.nextId⟩, mctx.cfg⟩,
           writeJSON 200 statusSuccess, [.delete i]) ∧
      deleteExpense memStorage
          ⟨⟨mctx.st.expenses.filter (fun e => e.id ≠ i), mctx.st.nextId⟩, mctx.cfg⟩
          "DELETE" i
        = (⟨⟨mctx.st.expenses.filter (fun e => e.id ≠ i), mctx.st.nextId⟩, mctx.cfg⟩,
           writeJSON 404 (errJson "Expense not found"), [.delete i])) := by
  refine ⟨?_, fun hne hd => ?_, fun hne hd => ?_, fun hne hd => ?_, fun hne hany => ?_⟩
  · unfold deleteExpense
    rw [if_neg (by simp), if_pos rfl]
  · unfold deleteExpense
    rw [if_neg (by simp), if_neg hne]
    simp only [hd]
  · unfold deleteExpense
    rw [if_neg (by simp), if_neg hne]
    simp only [hd]
  · unfold deleteExpense
    rw [if_neg (by simp), if_neg hne]
    simp only [hd]
  · constructor
    · unfold deleteExpense
      rw [if_neg (by simp), if_neg hne]
      simp [memStorage, memDelete, hany]
    · unfold deleteExpense
      rw [if_neg (by simp), if_neg hne]
      simp [memStorage, memDelete, filter_any_id_false]

/-- C3 witness: a missing id yields 400; deleting `id-0` on the empty
store yields 404; a storage that fails generically yields 500; and with
one stored expense `id-0`, deleting it twice yields 200 then 404. -/
theorem C3_delete_status_mapping_witness :
    (deleteExpense memStorage ctx0 "DELETE" ""
      = (ctx0, writeJSON 400 (errJson "ID parameter is required"), [])) ∧
    (deleteExpense memStorage ctx0 "DELETE" "id-0"
      = (ctx0, writeJSON 404 (errJson "Expense not found"), [.delete "id-0"])) ∧
    (deleteExpense (failStorage "disk gone") ⟨(), ctx0.cfg⟩ "DELETE" "id-0"
      = (⟨(), ctx0.cfg⟩, writeJSON 500 (errJson "Failed to delete expense"),
         [.delete "id-0"])) ∧
    (deleteExpense memStorage ctx1 "DELETE" "id-0"
      = (⟨⟨ctx1.st.expenses.filter (fun e => e.id ≠ "id-0"), ctx1.st.nextId⟩, ctx1.cfg⟩,
         writeJSON 200 statusSuccess, [.delete "id-0"]) ∧
     deleteExpense memStorage
         ⟨⟨ctx1.st.expenses.filter (fun e => e.id ≠ "id-0"), ctx1.st.nextId⟩, ctx1.cfg⟩
         "DELETE" "id-0"
       = (⟨⟨ctx1.st.expenses.filter (fun e => e.id ≠ "id-0"), ctx1.st.nextId⟩, ctx1.cfg⟩,
          writeJSON 404 (errJson "Expense not found"), [.delete "id-0"])) := by
  refine ⟨(C3_delete_status_mapping memStorage ctx0 "id-0" ctx0.st "m" ctx0).1,
    (C3_delete_status_mapping memStorage ctx0 "id-0" ctx0.st "m" ctx0).2.1
      (by decide) (by decide),
    (C3_delete_status_mapping (failStorage "disk gone") ⟨(), ctx0.cfg⟩ "id-0" ()
      "disk gone" ctx0).2.2.1 (by decide) rfl,
    (C3_delete_status_mapping memStorage ctx0 "id-0" ctx0.st "m" ctx1).2.2.2.2
      (by decide) ?_⟩
  simp [ctx1, expenseOfRequest]

/-- C6: when the fetch succeeds, `ExportCSV` responds 200 `text/csv`
whose body is the header line `ID,Name,Category,Amount,Date` followed by
exactly one line per stored expense in storage order; each line carries
the name with every comma replaced by a semicolon (no other field is
sanitized), the amount with exactly two decimal places, and the date in
the `YYYY-MM-DD HH:MM:SS` layout. -/
theorem C6_export_csv_format {σ : Type} (S : StorageModel σ) (ctx : Ctx σ)
    (es : List Expense) (h : S.getAll ctx.st = .ok es) :
    exportCSV S ctx "GET"
      = (ctx,
         { status := 200, contentType := some "text/csv",
           disposition := some "attachment; filename=expenses.csv",
           body := .textB (csvHeader ++ String.join (es.map csvRow)) },
         [.getAll]) ∧
    ∀ e ∈ es,
      csvRow e = e.id ++ "," ++ sanitizeName e.name ++ "," ++ e.category ++ "," ++
        format2 e.amount ++ "," ++ goDateFormat e.date ++ "\n" ∧
      (sanitizeName e.name).data.all (fun c => c ≠ ',') = true ∧
      (∃ pre post, format2 e.amount = pre ++ "." ++ post ∧ post.length = 2 ∧
        post.data.all Char.isDigit = true) ∧
      DateShaped (goDateFormat e.date) := by
  constructor
  · unfold exportCSV
    rw [if_neg (by simp)]
    simp only [h]
  · intro e _
    exact ⟨rfl, sanitizeName_no_comma e.name, format2_shape e.amount,
      goDateFormat_shaped e.date⟩

/-- C6 witness: exporting the one-expense store yields the header plus
one well-formed row for the stored Coffee expense. -/
theorem C6_export_csv_format_witness :
    memStorage.getAll ctx1.st = .ok ctx1.st.expenses ∧
    (exportCSV memStorage ctx1 "GET"
      = (ctx1,
         { status := 200, contentType := some "text/csv",
           disposition := some "attachment; filename=expenses.csv",
           body := .textB (csvHeader ++ String.join (ctx1.st.expenses.map csvRow)) },
         [.getAll]) ∧
     ∀ e ∈ ctx1.st.expenses,
       csvRow e = e.id ++ "," ++ sanitizeName e.name ++ "," ++ e.category ++ "," ++
         format2 e.amount ++ "," ++ goDateFormat e.date ++ "\n" ∧
       (sanitizeName e.name).data.all (fun c => c ≠ ',') = true ∧
       (∃ pre post, format2 e.amount = pre ++ "." ++ post ∧ post.length = 2 ∧
         post.data.all Char.isDigit = true) ∧
       DateShaped (goDateFormat e.date)) :=
  ⟨rfl, C6_export_csv_format memStorage ctx1 ctx1.st.expenses rfl⟩

/-- C7: when the fetch succeeds, `ExportJSON` responds 200
`application/json` (attachment) whose body is the expense list rendered
with 4-space indentation; decoding the serialized array recovers one
entry per stored expense with the same wire-level field values, and the
same JSON array is exactly what `GetExpenses` returns on the same
state. -/
theorem C7_export_json_roundtrip {σ : Type} (S : StorageModel σ) (ctx : Ctx σ)
    (es : List Expense) (h : S.getAll ctx.st = .ok es) :
    exportJSON S ctx "GET"
      = (ctx,
         { status := 200, contentType := some "application/json",
           disposition := some "attachment; filename=expenses.json",
           body := .textB (renderIndent 0 (.arr (es.map expenseToJson))) },
         [.getAll]) ∧
    decodeExpenseList (.arr (es.map expenseToJson)) = some (es.map wireOf) ∧
    (es.map wireOf).length = es.length ∧
    (∀ e ∈ es, wireOf e = ⟨e.id, e.name, e.category, e.amount, rfc3339 e.date⟩) ∧
    getExpenses S ctx "GET"
      = (ctx, writeJSON 200 (.arr (es.map expenseToJson)), [.getAll]) := by
  refine ⟨?_, decodeExpenseList_wire es, List.length_map _ _, fun e _ => rfl, ?_⟩
  · unfold exportJSON exportJSONWith
    rw [if_neg (by simp)]
    simp only [h]
    rfl
  · unfold getExpenses
    rw [if_neg (by simp)]
    simp only [h]

/-- C7 witness: exporting the one-expense store yields the indented array
for the stored Coffee expense, which decodes back to its wire fields and
matches the `GetExpenses` response. -/
theorem C7_export_json_roundtrip_witness :
    memStorage.getAll ctx1.st = .ok ctx1.st.expenses ∧
    (exportJSON memStorage ctx1 "GET"
      = (ctx1,
         { status := 200, contentType := some "application/json",
           disposition := some "attachment; filename=expenses.json",
           body := .textB (renderIndent 0 (.arr (ctx1.st.expenses.map expenseToJson))) },
         [.getAll]) ∧
     decodeExpenseList (.arr (ctx1.st.expenses.map expenseToJson))
       = some (ctx1.st.expenses.map wireOf) ∧
     (ctx1.st.expenses.map wireOf).length = ctx1.st.expenses.length ∧
     (∀ e ∈ ctx1.st.expenses,
        wireOf e = ⟨e.id, e.name, e.category, e.amount, rfc3339 e.date⟩) ∧
     getExpenses memStorage ctx1 "GET"
       = (ctx1, writeJSON 200 (.arr (ctx1.st.expenses.map expenseToJson)), [.getAll])) :=
  ⟨rfl, C7_export_json_roundtrip memStorage ctx1 ctx1.st.expenses rfl⟩

/-- C9: every storage, render, static, or serialization failure produces
a 500 whose body is a fixed generic message independent of the underlying
error value: two runs that differ only in the internal error (even in the
storage state that caused it) produce identical responses, and each such
response equals the corresponding constant. -/
theorem C9_500_body_error_independent {σ₁ σ₂ : Type}
    (S₁ : StorageModel σ₁) (S₂ : StorageModel σ₂) (ctx₁ : Ctx σ₁) (ctx₂ : Ctx σ₂)
    (validate : Expense → Option String) (req : ExpenseRequest)
    (e₁ e₂ : StorageErr) (st₁ : σ₁) (st₂ : σ₂) (i : String) (m₁ m₂ : String)
    (marshal₁ marshal₂ : List Expense → Except String String)
    (es₁ es₂ : List Expense) (r₁ r₂ : String) :
    (validate (expenseOfRequest req) = none →
      S₁.save ctx₁.st (expenseOfRequest req) = (st₁, .error e₁) →
      S₂.save ctx₂.st (expenseOfRequest req) = (st₂, .error e₂) →
      respOf (addExpense S₁ validate ctx₁ "PUT" (some req))
          = respOf (addExpense S₂ validate ctx₂ "PUT" (some req)) ∧
      respOf (addExpense S₁ validate ctx₁ "PUT" (some req))
          = writeJSON 500 (errJson "Failed to save expense")) ∧
    (S₁.getAll ctx₁.st = .error e₁ → S₂.getAll ctx₂.st = .error e₂ →
      respOf (getExpenses S₁ ctx₁ "GET") = respOf (getExpenses S₂ ctx₂ "GET") ∧
      respOf (getExpenses S₁ ctx₁ "GET")
          = writeJSON 500 (errJson "Failed to retrieve expenses") ∧
      respOf (exportCSV S₁ ctx₁ "GET") = respOf (exportCSV S₂ ctx₂ "GET") ∧
      respOf (exportJSONWith marshal₁ S₁ ctx₁ "GET")
          = respOf (exportJSONWith marshal₂ S₂ ctx₂ "GET")) ∧
    (i ≠ "" →
      S₁.delete ctx₁.st i = (st₁, some (.other m₁)) →
      S₂.delete ctx₂.st i = (st₂, some (.other m₂)) →
      respOf (deleteExpense S₁ ctx₁ "DELETE" i)
          = respOf (deleteExpense S₂ ctx₂ "DELETE" i) ∧
      respOf (deleteExpense S₁ ctx₁ "DELETE" i)
          = writeJSON 500 (errJson "Failed to delete expense")) ∧
    (S₁.getAll ctx₁.st = .ok es₁ → S₂.getAll ctx₂.st = .ok es₂ →
      marshal₁ es₁ = .error m₁ → marshal₂ es₂ = .error m₂ →
      respOf (exportJSONWith marshal₁ S₁ ctx₁ "GET")
          = respOf (exportJSONWith marshal₂ S₂ ctx₂ "GET") ∧
      respOf (exportJSONWith marshal₁ S₁ ctx₁ "GET")
          = httpError "Failed to marshal JSON data" 500) ∧
    (respOf (serveTableView ctx₁ "GET" (.error r₁))
        = respOf (serveTableView ctx₂ "GET" (.error r₂)) ∧
     respOf (serveTableView ctx₁ "GET" (.error r₁))
        = httpError "Failed to serve template" 500) ∧
    (respOf (serveSettingsPage ctx₁ "GET" (.error r₁))
        = respOf (serveSettingsPage ctx₂ "GET" (.error r₂))) ∧
    (respOf (serveAPISetupView ctx₁ "GET" (.error r₁))
        = respOf (serveAPISetupView ctx₂ "GET" (.error r₂))) ∧
    (respOf (serveStaticFile ctx₁ "GET" m₁ (.error r₁))
        = respOf (serveStaticFile ctx₂ "GET" m₂ (.error r₂)) ∧
     respOf (serveStaticFile ctx₁ "GET" m₁ (.error r₁))
        = httpError "Failed to serve static file" 500) := by
  have hsave : ∀ {σ : Type} (S : StorageModel σ) (ctx : Ctx σ) (st : σ)
      (e : StorageErr), validate (expenseOfRequest req) = none →
      S.save ctx.st (expenseOfRequest req) = (st, .error e) →
      respOf (addExpense S validate ctx "PUT" (some req))
        = writeJSON 500 (errJson "Failed to save expense") := by
    intro σ S ctx st e hv hs
    unfold addExpense
    rw [if_neg (by simp)]
    simp only [hv, hs, respOf]
  have hget : ∀ {σ : Type} (S : StorageModel σ) (ctx : Ctx σ) (e : StorageErr),
      S.getAll ctx.st = .error e →
      respOf (getExpenses S ctx "GET")
        = writeJSON 500 (errJson "Failed to retrieve expenses") := by
    intro σ S ctx e hg
    unfold getExpenses
    rw [if_neg (by simp)]
    simp only [hg, respOf]
  have hcsv : ∀ {σ : Type} (S : StorageModel σ) (ctx : Ctx σ) (e : StorageErr),
      S.getAll ctx.st = .error e →
      respOf (exportCSV S ctx "GET")
        = writeJSON 500 (errJson "Failed to retrieve expenses") := by
    intro σ S ctx e hg
    unfold exportCSV
    rw [if_neg (by simp)]
    simp only [hg, respOf]
  have hjs : ∀ {σ : Type} (S : StorageModel σ) (ctx : Ctx σ) (e : StorageErr)
      (marshal : List Expense → Except String String),
      S.getAll ctx.st = .error e →
      respOf (exportJSONWith marshal S ctx "GET")
        = writeJSON 500 (errJson "Failed to retrieve expenses") := by
    intro σ S ctx e marshal hg
    unfold exportJSONWith
    rw [if_neg (by simp)]
    simp only [hg, respOf]
  have hmar : ∀ {σ : Type} (S : StorageModel σ) (ctx : Ctx σ) (es : List Expense)
      (marshal : List Expense → Except String String) (m : String),
      S.getAll ctx.st = .ok es → marshal es = .error m →
      respOf (exportJSONWith marshal S ctx "GET")
        = httpError "Failed to marshal JSON data" 500 := by
    intro σ S ctx es marshal m hg hm
    unfold exportJSONWith
    rw [if_neg (by simp)]
    simp only [hg, hm, respOf]
  have hdel : ∀ {σ : Type} (S : StorageModel σ) (ctx : Ctx σ) (st : σ) (m : String),
      i ≠ "" → S.delete ctx.st i = (st, some (.other m)) →
      respOf (deleteExpense S ctx "DELETE" i)
        = writeJSON 500 (errJson "Failed to delete expense") := by
    intro σ S ctx st m hne hd
    unfold deleteExpense
    rw [if_neg (by simp), if_neg hne]
    simp only [hd, respOf]
  refine ⟨fun hv h₁ h₂ => ?_, fun h₁ h₂ => ?_, fun hne h₁ h₂ => ?_,
    fun hg₁ hg₂ hm₁ hm₂ => ?_, ⟨rfl, rfl⟩, rfl, rfl, ⟨rfl, rfl⟩⟩
  · exact ⟨(hsave S₁ ctx₁ st₁ e₁ hv h₁).trans (hsave S₂ ctx₂ st₂ e₂ hv h₂).symm,
      hsave S₁ ctx₁ st₁ e₁ hv h₁⟩
  · exact ⟨by rw [hget S₁ ctx₁ e₁ h₁, hget S₂ ctx₂ e₂ h₂], hget S₁ ctx₁ e₁ h₁,
      by rw [hcsv S₁ ctx₁ e₁ h₁, hcsv S₂ ctx₂ e₂ h₂],
      by rw [hjs S₁ ctx₁ e₁ marshal₁ h₁, hjs S₂ ctx₂ e₂ marshal₂ h₂]⟩
  · exact ⟨by rw [hdel S₁ ctx₁ st₁ m₁ hne h₁, hdel S₂ ctx₂ st₂ m₂ hne h₂],
      hdel S₁ ctx₁ st₁ m₁ hne h₁⟩
  · exact ⟨by rw [hmar S₁ ctx₁ es₁ marshal₁ m₁ hg₁ hm₁,
      hmar S₂ ctx₂ es₂ marshal₂ m₂ hg₂ hm₂], hmar S₁ ctx₁ es₁ marshal₁ m₁ hg₁ hm₁⟩

/-- C9 witness: two failing storages with different error messages (and a
failing marshal, render, and static resolution with different messages)
produce identical generic 500 responses on every failure path. -/
theorem C9_500_body_error_independent_witness :
    (respOf (addExpense (failStorage "boom-A") specValidate ⟨(), ctx0.cfg⟩ "PUT"
        (some coffeeReq))
      = respOf (addExpense (failStorage "boom-B") specValidate ⟨(), ctx0.cfg⟩ "PUT"
        (some coffeeReq)) ∧
     respOf (addExpense (failStorage "boom-A") specValidate ⟨(), ctx0.cfg⟩ "PUT"
        (some coffeeReq)) = writeJSON 500 (errJson "Failed to save expense")) ∧
    (respOf (getExpenses (failStorage "boom-A") ⟨(), ctx0.cfg⟩ "GET")
      = respOf (getExpenses (failStorage "boom-B") ⟨(), ctx0.cfg⟩ "GET") ∧
     respOf (getExpenses (failStorage "boom-A") ⟨(), ctx0.cfg⟩ "GET")
      = writeJSON 500 (errJson "Failed to retrieve expenses") ∧
     respOf (exportCSV (failStorage "boom-A") ⟨(), ctx0.cfg⟩ "GET")
      = respOf (exportCSV (failStorage "boom-B") ⟨(), ctx0.cfg⟩ "GET") ∧
     respOf (exportJSONWith (fun _ => .error "mar-A") (failStorage "boom-A")
        ⟨(), ctx0.cfg⟩ "GET")
      = respOf (exportJSONWith (fun _ => .error "mar-B") (failStorage "boom-B")
        ⟨(), ctx0.cfg⟩ "GET")) ∧
    (respOf (deleteExpense (failStorage "boom-A") ⟨(), ctx0.cfg⟩ "DELETE" "id-0")
      = respOf (deleteExpense (failStorage "boom-B") ⟨(), ctx0.cfg⟩ "DELETE" "id-0") ∧
     respOf (deleteExpense (failStorage "boom-A") ⟨(), ctx0.cfg⟩ "DELETE" "id-0")
      = writeJSON 500 (errJson "Failed to delete expense")) ∧
    (respOf (exportJSONWith (fun _ => .error "mar-A") memStorage ctx0 "GET")
      = respOf (exportJSONWith (fun _ => .error "mar-B") memStorage ctx1 "GET") ∧
     respOf (exportJSONWith (fun _ => .error "mar-A") memStorage ctx0 "GET")
      = httpError "Failed to marshal JSON data" 500) ∧
    (respOf (serveTableView ⟨(), ctx0.cfg⟩ "GET" (.error "rend-A"))
      = respOf (serveTableView ⟨(), ctx0.cfg⟩ "GET" (.error "rend-B")) ∧
     respOf (serveTableView ⟨(), ctx0.cfg⟩ "GET" (.error "rend-A"))
      = httpError "Failed to serve template" 500) ∧
    (respOf (serveSettingsPage ⟨(), ctx0.cfg⟩ "GET" (.error "rend-A"))
      = respOf (serveSettingsPage ⟨(), ctx0.cfg⟩ "GET" (.error "rend-B"))) ∧
    (respOf (serveAPISetupView ⟨(), ctx0.cfg⟩ "GET" (.error "rend-A"))
      = respOf (serveAPISetupView ⟨(), ctx0.cfg⟩ "GET" (.error "rend-B"))) ∧
    (respOf (serveStaticFile ⟨(), ctx0.cfg⟩ "GET" "boom-A" (.error "sta-A"))
      = respOf (serveStaticFile ⟨(), ctx0.cfg⟩ "GET" "boom-B" (.error "sta-B")) ∧
     respOf (serveStaticFile ⟨(), ctx0.cfg⟩ "GET" "boom-A" (.error "sta-A"))
      = httpError "Failed to serve static file" 500) := by
  have h := C9_500_body_error_independent (failStorage "boom-A") (failStorage "boom-B")
    ⟨(), ctx0.cfg⟩ ⟨(), ctx0.cfg⟩ specValidate coffeeReq (.other "boom-A")
    (.other "boom-B") () () "id-0" "boom-A" "boom-B"
    (fun _ => .error "mar-A") (fun _ => .error "mar-B") [] [] "rend-A" "rend-B"
  have hmar := C9_500_body_error_independent memStorage memStorage ctx0 ctx1
    specValidate coffeeReq (.other "x") (.other "y") ctx0.st ctx1.st "id-0"
    "mar-A" "mar-B" (fun _ => .error "mar-A") (fun _ => .error "mar-B")
    ctx0.st.expenses ctx1.st.expenses "r" "r"
  exact ⟨h.1 coffee_valid rfl rfl, h.2.1 rfl rfl,
    h.2.2.1 (by decide) rfl rfl,
    hmar.2.2.2.1 rfl rfl rfl rfl,
    h.2.2.2.2.1, h.2.2.2.2.2.1, h.2.2.2.2.2.2.1, h.2.2.2.2.2.2.2⟩

/-- C10: every 400/404/500 error response emitted through `writeJSON` by
the config, expense-CRUD, and export handlers carries
`Content-Type: application/json` with a JSON object body, whereas every
405 response and the template/static 500 responses are the plain-text
output of `http.Error`. -/
theorem C10_error_response_content_types {σ : Type} (S : StorageModel σ)
    (validate : Expense → Option String) (ctx : Ctx σ) (m : String)
    (req : ExpenseRequest) (msg : String) (st' : σ) (err : StorageErr)
    (i : String) (m2 : String) (marshal : List Expense → Except String String)
    (r : String) (path : String) :
    (∀ code msg0, jsonObjResp (writeJSON code (errJson msg0))) ∧
    respOf (editCategories ctx "PUT" (none : Option (List String)))
      = writeJSON 400 (errJson "Invalid request body") ∧
    respOf (editCurrency ctx "PUT" (none : Option String))
      = writeJSON 400 (errJson "Invalid request body") ∧
    respOf (addExpense S validate ctx "PUT" none)
      = writeJSON 400 (errJson "Invalid request body") ∧
    (validate (expenseOfRequest req) = some msg →
      respOf (addExpense S validate ctx "PUT" (some req)) = writeJSON 400 (errJson msg)) ∧
    (validate (expenseOfRequest req) = none →
      S.save ctx.st (expenseOfRequest req) = (st', .error err) →
      respOf (addExpense S validate ctx "PUT" (some req))
        = writeJSON 500 (errJson "Failed to save expense")) ∧
    (S.getAll ctx.st = .error err →
      respOf (getExpenses S ctx "GET")
        = writeJSON 500 (errJson "Failed to retrieve expenses") ∧
      respOf (exportCSV S ctx "GET")
        = writeJSON 500 (errJson "Failed to retrieve expenses") ∧
      respOf (exportJSONWith marshal S ctx "GET")
        = writeJSON 500 (errJson "Failed to retrieve expenses")) ∧
    respOf (deleteExpense S ctx "DELETE" "")
      = writeJSON 400 (errJson "ID parameter is required") ∧
    (i ≠ "" → S.delete ctx.st i = (st', some .notFound) →
      respOf (deleteExpense S ctx "DELETE" i) = writeJSON 404 (errJson "Expense not found")) ∧
    (i ≠ "" → S.delete ctx.st i = (st', some (.other m2)) →
      respOf (deleteExpense S ctx "DELETE" i)
        = writeJSON 500 (errJson "Failed to delete expense")) ∧
    plainTextResp methodNotAllowed ∧
    (m ≠ "PUT" →
      respOf (addExpense S validate ctx m (some req)) = methodNotAllowed ∧
      respOf (editCategories ctx m (none : Option (List String))) = methodNotAllowed ∧
      respOf (editCurrency ctx m (none : Option String)) = methodNotAllowed) ∧
    (m ≠ "GET" →
      respOf (getCategories ctx m) = methodNotAllowed ∧
      respOf (getExpenses S ctx m) = methodNotAllowed ∧
      respOf (exportCSV S ctx m) = methodNotAllowed ∧
      respOf (exportJSONWith marshal S ctx m) = methodNotAllowed ∧
      respOf (serveTableView ctx m (.error r)) = methodNotAllowed ∧
      respOf (serveSettingsPage ctx m (.error r)) = methodNotAllowed ∧
      respOf (serveAPISetupView ctx m (.error r)) = methodNotAllowed ∧
      respOf (serveStaticFile ctx m path (.error r)) = methodNotAllowed) ∧
    (m ≠ "DELETE" → respOf (deleteExpense S ctx m i) = methodNotAllowed) ∧
    plainTextResp (httpError "Failed to serve template" 500) ∧
    plainTextResp (httpError "Failed to serve static file" 500) ∧
    respOf (serveTableView ctx "GET" (.error r)) = httpError "Failed to serve template" 500 ∧
    respOf (serveSettingsPage ctx "GET" (.error r))
      = httpError "Failed to serve template" 500 ∧
    respOf (serveAPISetupView ctx "GET" (.error r))
      = httpError "Failed to serve template" 500 ∧
    respOf (serveStaticFile ctx "GET" path (.error r))
      = httpError "Failed to serve static file" 500 := by
  have hg := methodGuard S validate ctx m none none (some req) i (.error r) path
    (.error r) marshal
  have hg2 := methodGuard S validate ctx m none none (some req) i (.error r) path
    (.error r) marshal
  refine ⟨fun code msg0 => ⟨rfl, errJson msg0, rfl, rfl⟩, ?_, ?_, ?_,
    fun hv => ?_, fun hv hs => ?_, fun hget => ⟨?_, ?_, ?_⟩, ?_,
    fun hne hd => ?_, fun hne hd => ?_, ⟨rfl, "Method not allowed" ++ "\n", rfl⟩,
    fun hm => ⟨by rw [hg.2.2.2.1 hm]; rfl, by rw [hg.2.1 hm]; rfl,
      by rw [hg.2.2.1 hm]; rfl⟩,
    fun hm => ⟨by rw [hg.1 hm]; rfl, by rw [hg.2.2.2.2.1 hm]; rfl,
      by rw [hg.2.2.2.2.2.2.2.2.2.2.1 hm]; rfl,
      by rw [hg.2.2.2.2.2.2.2.2.2.2.2 hm]; rfl,
      by rw [hg.2.2.2.2.2.2.1 hm]; rfl, by rw [hg.2.2.2.2.2.2.2.1 hm]; rfl,
      by rw [hg.2.2.2.2.2.2.2.2.1 hm]; rfl,
      by rw [hg.2.2.2.2.2.2.2.2.2.1 hm]; rfl⟩,
    fun hm => by rw [hg.2.2.2.2.2.1 hm]; rfl,
    ⟨rfl, "Failed to serve template" ++ "\n", rfl⟩,
    ⟨rfl, "Failed to serve static file" ++ "\n", rfl⟩, rfl, rfl, rfl, rfl⟩
  · unfold editCategories
    rw [if_neg (by simp)]
    rfl
  · unfold editCurrency
    rw [if_neg (by simp)]
    rfl
  · unfold addExpense
    rw [if_neg (by simp)]
    rfl
  · unfold addExpense
    rw [if_neg (by simp)]
    simp only [hv, respOf]
  · unfold addExpense
    rw [if_neg (by simp)]
    simp only [hv, hs, respOf]
  · unfold getExpenses
    rw [if_neg (by simp)]
    simp only [hget, respOf]
  · unfold exportCSV
    rw [if_neg (by simp)]
    simp only [hget, respOf]
  · unfold exportJSONWith
    rw [if_neg (by simp)]
    simp only [hget, respOf]
  · unfold deleteExpense
    rw [if_neg (by simp), if_pos rfl]
    rfl
  · unfold deleteExpense
    rw [if_neg (by simp), if_neg hne]
    simp only [hd, respOf]
  · unfold deleteExpense
    rw [if_neg (by simp), if_neg hne]
    simp only [hd, respOf]

/-- C10 witness: the concrete error paths on the fixtures carry the
claimed content types and body shapes. -/
theorem C10_error_response_content_types_witness :
    jsonObjResp (writeJSON 400 (errJson "Invalid request body")) ∧
    respOf (editCategories ctx0 "PUT" (none : Option (List String)))
      = writeJSON 400 (errJson "Invalid request body") ∧
    respOf (addExpense (failStorage "boom") specValidate ⟨(), ctx0.cfg⟩ "PUT"
        (some coffeeReq)) = writeJSON 500 (errJson "Failed to save expense") ∧
    respOf (getExpenses (failStorage "boom") ⟨(), ctx0.cfg⟩ "GET")
      = writeJSON 500 (errJson "Failed to retrieve expenses") ∧
    respOf (deleteExpense memStorage ctx0 "DELETE" "")
      = writeJSON 400 (errJson "ID parameter is required") ∧
    respOf (deleteExpense memStorage ctx0 "DELETE" "id-0")
      = writeJSON 404 (errJson "Expense not found") ∧
    plainTextResp methodNotAllowed ∧
    respOf (getCategories ctx0 "POST") = methodNotAllowed ∧
    respOf (serveTableView ctx0 "GET" (.error "broken"))
      = httpError "Failed to serve template" 500 ∧
    plainTextResp (httpError "Failed to serve template" 500) := by
  have ha := C10_error_response_content_types (failStorage "boom") specValidate
    ⟨(), ctx0.cfg⟩ "POST" coffeeReq "x" () (.other "boom") "id-0" "boom"
    goMarshalIndent "broken" "/style.css"
  have hb := C10_error_response_content_types memStorage specValidate ctx0 "POST"
    coffeeReq "x" ctx0.st (.other "boom") "id-0" "boom" goMarshalIndent "broken"
    "/style.css"
  have htail := hb.2.2.2.2.2.2.2.2.2.2.2.2.2.2
  exact ⟨ha.1 400 "Invalid request body", hb.2.1,
    ha.2.2.2.2.2.1 coffee_valid rfl,
    ha.2.2.2.2.2.2.1 rfl |>.1,
    hb.2.2.2.2.2.2.2.1,
    hb.2.2.2.2.2.2.2.2.1 (by decide) (by decide),
    hb.2.2.2.2.2.2.2.2.2.2.1,
    (hb.2.2.2.2.2.2.2.2.2.2.2.2.1 (by decide)).1,
    htail.2.2.1,
    htail.1⟩

end ExpenseOwl
